import Mathlib

/-!
# CLI Stock Tracker: formal model of the cache / aggregator / orchestrator core

A shallow embedding of the data-freshness and multi-mode orchestration layer of
the CLI stock tracker:

* `src/finnhub_client.py` — the per-ticker data aggregator (`fetch_ticker_data`,
  `fetch_static_data`) and its gateway wrappers (`get_quote`, `get_profile`,
  `get_financials`, `get_ytd_price`, `get_ten_year_price`) and the shared
  change-calculation helper `calculate_changes`;
* `src/cache.py` — the persistent JSON cache (`load_cache`, `save_cache`,
  `get_cached_data`, `get_cached_data_unchecked`, `update_cache`);
* `src/main.py` — the one-shot ("normal") mode loop, the daemon-mode cache
  refresh cycle, and the watch-mode render step;
* `src/websocket_client.py` — the live-price table read (`get_latest_price`).

The remote data provider (the Finnhub client object) is an external
collaborator; it is modelled as a record of response functions, each of which
either returns structured data or signals failure by raising its API exception
(`finnhub.FinnhubAPIException`), the one failure signal of the gateway
interface.  Raising is modelled with `Except`: a gateway operation returns
`Except ApiError α`, and Python `try`/`except finnhub.FinnhubAPIException`
blocks become matches that turn `.error` into `none`.  Python `float` prices
are modelled as `ℚ`, JSON objects as structures with `Option` fields for keys
that may be absent, and Python `None` as `Option.none`.

Aggregator functions additionally return the list of gateway calls they made,
in order, so that call-minimisation and short-circuit properties can be stated.
-/

/-- The failure signal of the remote data gateway: `finnhub.FinnhubAPIException`,
the exception class every `except` clause in `src/finnhub_client.py` catches. -/
inductive ApiError : Type
  | finnhubAPIException
  deriving DecidableEq, Repr

/-- A quote response from the gateway.  `src/finnhub_client.py` reads only the
keys `'c'` (current price) and `'pc'` (previous close), via `dict.get`, so each
is an `Option`; the remaining keys of the real payload are never consulted. -/
structure QuoteResp : Type where
  c : Option ℚ
  pc : Option ℚ
  deriving DecidableEq, Repr

/-- A company-profile response.  Only `profile.get('name')` is read. -/
structure ProfileResp : Type where
  name : Option String
  deriving DecidableEq, Repr

/-- The `'metric'` object of a basic-financials response; the three keys read
by `get_financials`. -/
structure MetricData : Type where
  epsTTM : Option ℚ
  peTTM : Option ℚ
  currentDividendYieldTTM : Option ℚ
  deriving DecidableEq, Repr

/-- A basic-financials response: `financials.get('metric', {})` means the
`'metric'` key may be absent. -/
structure FinancialsResp : Type where
  metric : Option MetricData
  deriving DecidableEq, Repr

/-- A candle response: status string `'s'` and closing-price list `'c'`. -/
structure CandleResp : Type where
  s : String
  c : List ℚ
  deriving DecidableEq, Repr

/-- The two historical-candle date windows requested by the source:
`get_ytd_price` asks for the 10 days from January 1st, `get_ten_year_price`
for the 5 days from ten years ago.  The calendar arithmetic that produces the
unix timestamps is abstracted into the window kind; both windows go to the
same `stock_candles` endpoint (the historical-closes operation). -/
inductive Window : Type
  | ytd
  | tenYear
  deriving DecidableEq, Repr

/-- The remote data gateway (the `finnhub.Client` object): one response
function per endpoint.  Each either returns structured data or signals
failure (`Except.error`). -/
structure Gateway : Type where
  quote : String → Except ApiError QuoteResp
  company_profile2 : String → Except ApiError ProfileResp
  company_basic_financials : String → Except ApiError FinancialsResp
  stock_candles : String → Window → Except ApiError CandleResp

/-- One gateway call, as recorded in an aggregator's call trace. -/
inductive GatewayCall : Type
  | quote (ticker : String)
  | profile (ticker : String)
  | financials (ticker : String)
  | candles (ticker : String) (w : Window)
  deriving DecidableEq, Repr

/-- A ticker object from `load_tickers`: a required `'ticker'` key and an
optional `'name'` key. -/
structure TickerObj : Type where
  ticker : String
  name : Option String
  deriving DecidableEq, Repr

/-- The `'columns'` section of the settings object. -/
structure Columns : Type where
  eps : Bool
  pe_ratio : Bool
  dividend : Bool
  ytd_change : Bool
  ten_year_change : Bool
  deriving DecidableEq, Repr

/-- The `'cache'` section of the settings object: `enabled` and the freshness
interval in minutes. -/
structure CacheSettings : Type where
  enabled : Bool
  interval : ℤ
  deriving DecidableEq, Repr

/-- The settings object produced by `load_settings`. -/
structure Settings : Type where
  columns : Columns
  cache : CacheSettings
  watch_interval : ℚ
  deriving DecidableEq, Repr

/-- The success-variant aggregation record built by `fetch_ticker_data`
(every key of the dict literal at the end of the function). -/
structure FinRecord : Type where
  ticker : String
  company_name : Option String
  current_price : Option ℚ
  eps : Option ℚ
  pe_ratio : Option ℚ
  dividend : Option ℚ
  daily_change : Option ℚ
  ytd_change : Option ℚ
  ten_year_change : Option ℚ
  deriving DecidableEq, Repr

/-- The tagged union of the two record shapes `fetch_ticker_data` can return:
a successful aggregation, or `{'ticker': ..., 'message': ...}` (the presence
of the `'message'` key marks the failure variant). -/
inductive Record : Type
  | success (r : FinRecord)
  | failure (ticker message : String)
  deriving DecidableEq, Repr

/-- `get_quote` (src/finnhub_client.py, lines 44–57):
`try: return client.quote(ticker) except finnhub.FinnhubAPIException: return None`.
The result type records that an uncaught exception would propagate; the
handler catches the gateway's failure signal, so none does. -/
def get_quote (gw : Gateway) (ticker : String) : Except ApiError (Option QuoteResp) :=
  match gw.quote ticker with
  | .ok q => .ok (some q)
  | .error .finnhubAPIException => .ok none

/-- `get_profile` (lines 60–74): fetch the company profile and return
`profile.get('name')`; on the API exception return `None`. -/
def get_profile (gw : Gateway) (ticker : String) : Except ApiError (Option String) :=
  match gw.company_profile2 ticker with
  | .ok profile => .ok profile.name
  | .error .finnhubAPIException => .ok none

/-- The dictionary `get_financials` builds from the `'metric'` object. -/
structure FinMetrics : Type where
  eps : Option ℚ
  pe : Option ℚ
  dividend : Option ℚ
  deriving DecidableEq, Repr

/-- `get_financials` (lines 77–98): `metrics = financials.get('metric', {})`
then read `epsTTM`, `peTTM`, `currentDividendYieldTTM`; `None` on the API
exception. -/
def get_financials (gw : Gateway) (ticker : String) : Except ApiError (Option FinMetrics) :=
  match gw.company_basic_financials ticker with
  | .ok financials =>
      let metrics := financials.metric.getD ⟨none, none, none⟩
      .ok (some ⟨metrics.epsTTM, metrics.peTTM, metrics.currentDividendYieldTTM⟩)
  | .error .finnhubAPIException => .ok none

/-- `get_ytd_price` (lines 101–126): fetch daily candles for the 10-day window
from January 1st; `if data['s'] == 'ok' and data['c']: return data['c'][0]`,
else `None`; `None` on the API exception. -/
def get_ytd_price (gw : Gateway) (ticker : String) : Except ApiError (Option ℚ) :=
  match gw.stock_candles ticker Window.ytd with
  | .ok data => if data.s = "ok" then .ok data.c.head? else .ok none
  | .error .finnhubAPIException => .ok none

/-- `get_ten_year_price` (lines 129–164): same shape as `get_ytd_price`, over
the 5-day window starting ten years ago. -/
def get_ten_year_price (gw : Gateway) (ticker : String) : Except ApiError (Option ℚ) :=
  match gw.stock_candles ticker Window.tenYear with
  | .ok data => if data.s = "ok" then .ok data.c.head? else .ok none
  | .error .finnhubAPIException => .ok none

/-- The conditional expression `calculate_changes` (lines 167–218) repeats
verbatim for each of its three changes: `((current - base) / base) * 100 if
current is not None and base is not None and base != 0 else None`, factored
here into one definition applied three times. -/
def change_expr (current base : Option ℚ) : Option ℚ :=
  match current, base with
  | some c, some b => if b ≠ 0 then some ((c - b) / b * 100) else none
  | _, _ => none

/-- `calculate_changes` (lines 167–218).  Daily, YTD and ten-year percentage
changes; `(None, None, None)` when the quote is `None`; each individual change
is `None` unless both its prices are present and the base is nonzero. -/
def calculate_changes (quote : Option QuoteResp) (ytd_price ten_year_price : Option ℚ) :
    Option ℚ × Option ℚ × Option ℚ :=
  match quote with
  | none => (none, none, none)
  | some q =>
      (change_expr q.c q.pc, change_expr q.c ytd_price, change_expr q.c ten_year_price)

/-- `pct_change`, written from the spec's words (§4.3): `None` if either input
is `None` or the base is zero, otherwise `((current - base) / base) * 100`.
Stated separately from `calculate_changes` (which comes from the source) so
the two can be compared. -/
def pct_change (current base : Option ℚ) : Option ℚ :=
  match current, base with
  | some c, some b => if b = 0 then none else some ((c - b) / b * 100)
  | _, _ => none

/-- Sequencing combinator for an aggregator step: run a sub-computation that
made the given gateway calls; if it raised, the exception propagates (with the
calls already made on record); otherwise continue. -/
def bindStep {α β : Type} (x : Except ApiError α × List GatewayCall)
    (k : α → Except ApiError β × List GatewayCall) :
    Except ApiError β × List GatewayCall :=
  match x with
  | (.error e, calls) => (.error e, calls)
  | (.ok a, calls) => ((k a).1, calls ++ (k a).2)

/-- `fetch_ticker_data` (lines 221–285), the aggregator.  Fetch the quote; if
it is `None` return the failure variant `{'ticker': ..., 'message': 'Data
unavailable'}` at once.  Otherwise resolve the company name (user-provided
name wins, else profile lookup), fetch financials, conditionally fetch the
YTD / ten-year historical closes gated on the column settings, compute the
changes, and assemble the success variant.  The second component is the trace
of gateway calls made, in order. -/
def fetch_ticker_data (gw : Gateway) (ticker_obj : TickerObj) (settings : Settings) :
    Except ApiError Record × List GatewayCall :=
  let ticker := ticker_obj.ticker
  let user_name := ticker_obj.name
  bindStep (get_quote gw ticker, [GatewayCall.quote ticker]) fun quoteOpt =>
    match quoteOpt with
    | none => (.ok (Record.failure ticker "Data unavailable"), [])
    | some quote =>
        bindStep (match user_name with
          | some n => (.ok (some n), [])
          | none => (get_profile gw ticker, [GatewayCall.profile ticker])) fun company_name =>
        bindStep (get_financials gw ticker, [GatewayCall.financials ticker]) fun financials =>
        bindStep (if settings.columns.ytd_change
          then (get_ytd_price gw ticker, [GatewayCall.candles ticker Window.ytd])
          else (.ok none, [])) fun ytd_price =>
        bindStep (if settings.columns.ten_year_change
          then (get_ten_year_price gw ticker, [GatewayCall.candles ticker Window.tenYear])
          else (.ok none, [])) fun ten_year_price =>
        let changes := calculate_changes (some quote) ytd_price ten_year_price
        (.ok (Record.success
          { ticker := ticker
            company_name := company_name
            current_price := quote.c
            eps := Option.bind financials FinMetrics.eps
            pe_ratio := Option.bind financials FinMetrics.pe
            dividend := Option.bind financials FinMetrics.dividend
            daily_change := changes.1
            ytd_change := changes.2.1
            ten_year_change := changes.2.2 }), [])

/-- The static record built by `fetch_static_data` for watch mode. -/
structure StaticRecord : Type where
  ticker : String
  company_name : Option String
  pc : Option ℚ
  initial_current_price : Option ℚ
  eps : Option ℚ
  pe_ratio : Option ℚ
  dividend : Option ℚ
  ytd_price : Option ℚ
  ten_year_price : Option ℚ
  deriving DecidableEq, Repr

/-- The two record shapes `fetch_static_data` can return. -/
inductive StaticResult : Type
  | success (r : StaticRecord)
  | failure (ticker message : String)
  deriving DecidableEq, Repr

/-- `fetch_static_data` (lines 288–348): steps 1–4 of the aggregator, but the
result keeps the raw base prices instead of computed changes (changes are
recomputed repeatedly in the watch loop). -/
def fetch_static_data (gw : Gateway) (ticker_obj : TickerObj) (settings : Settings) :
    Except ApiError StaticResult × List GatewayCall :=
  let ticker := ticker_obj.ticker
  let user_name := ticker_obj.name
  bindStep (get_quote gw ticker, [GatewayCall.quote ticker]) fun quoteOpt =>
    match quoteOpt with
    | none => (.ok (StaticResult.failure ticker "Data unavailable"), [])
    | some quote =>
        bindStep (match user_name with
          | some n => (.ok (some n), [])
          | none => (get_profile gw ticker, [GatewayCall.profile ticker])) fun company_name =>
        bindStep (get_financials gw ticker, [GatewayCall.financials ticker]) fun financials =>
        bindStep (if settings.columns.ytd_change
          then (get_ytd_price gw ticker, [GatewayCall.candles ticker Window.ytd])
          else (.ok none, [])) fun ytd_price =>
        bindStep (if settings.columns.ten_year_change
          then (get_ten_year_price gw ticker, [GatewayCall.candles ticker Window.tenYear])
          else (.ok none, [])) fun ten_year_price =>
        (.ok (StaticResult.success
          { ticker := ticker
            company_name := company_name
            pc := quote.pc
            initial_current_price := quote.c
            eps := Option.bind financials FinMetrics.eps
            pe_ratio := Option.bind financials FinMetrics.pe
            dividend := Option.bind financials FinMetrics.dividend
            ytd_price := ytd_price
            ten_year_price := ten_year_price }), [])

/-- One entry of the persistent cache file: the cached payload under `'data'`
and the integer UTC capture timestamp under `'timestamp'`. -/
structure CacheEntry : Type where
  data : Record
  timestamp : ℤ
  deriving DecidableEq

/-- The in-memory cache mapping, ticker → entry, as loaded from `cache.json`. -/
def CacheMap : Type := String → Option CacheEntry

/-- The backing store (`cache.json`): `none` models a missing, unreadable or
corrupt file, `some m` a well-formed file holding the mapping `m`. -/
def CacheStore : Type := Option CacheMap

/-- `load_cache` (src/cache.py, lines 31–53): read the backing store; a
missing or invalid file yields the empty mapping (never an error). -/
def load_cache (st : CacheStore) : CacheMap :=
  match st with
  | some m => m
  | none => fun _ => none

/-- `save_cache` (lines 56–76): serialize the full mapping back to the file,
replacing its prior contents wholesale. -/
def save_cache (m : CacheMap) : CacheStore :=
  some m

/-- `get_cached_data` (lines 79–106): load the cache; if the ticker has an
entry and `now - entry['timestamp'] <= interval * 60` return `entry['data']`,
else `None`.  `now` is a float timestamp (`ℚ` here), the stored timestamp an
integer.  Returns the (unchanged) backing store as well, making the
read-only nature of the operation part of its statement. -/
def get_cached_data (ticker : String) (interval : ℤ) (now : ℚ) (st : CacheStore) :
    Option Record × CacheStore :=
  let cache := load_cache st
  match cache ticker with
  | none => (none, st)
  | some entry =>
      if now - (entry.timestamp : ℚ) ≤ (interval : ℚ) * 60
      then (some entry.data, st)
      else (none, st)

/-- `get_cached_data_unchecked` (lines 109–130): same lookup ignoring the
timestamp entirely. -/
def get_cached_data_unchecked (ticker : String) (st : CacheStore) :
    Option Record × CacheStore :=
  let cache := load_cache st
  match cache ticker with
  | some entry => (some entry.data, st)
  | none => (none, st)

/-- `update_cache` (lines 133–152): load the cache, overwrite (or insert) the
ticker's entry with the payload and the current integer UTC timestamp, and
save the whole mapping back. -/
def update_cache (ticker : String) (data : Record) (now : ℤ) (st : CacheStore) :
    CacheStore :=
  let cache := load_cache st
  save_cache (fun t => if t = ticker then some ⟨data, now⟩ else cache t)

/-- The live-price table of `src/websocket_client.py`: the `latest_prices`
dictionary, ticker → most recent streamed trade price. -/
def LivePriceTable : Type := String → Option ℚ

/-- `get_latest_price` (src/websocket_client.py, lines 85–99):
`latest_prices.get(ticker)`. -/
def get_latest_price (table : LivePriceTable) (ticker : String) : Option ℚ :=
  table ticker

/-- One render row of the watch-mode loop (src/main.py, lines 172–203).  A
failure-variant snapshot passes through unchanged.  Otherwise the effective
current price is the live streamed price if one exists, else the snapshot's
baseline `initial_current_price`; a synthetic quote `{'c': current, 'pc':
static['pc']}` is fed to `calculate_changes` together with the snapshot's
stored base prices, and the row is assembled from the results. -/
def watch_render_row (table : LivePriceTable) (static : StaticResult) : Record :=
  match static with
  | .failure t m => Record.failure t m
  | .success st =>
      let latest_price := get_latest_price table st.ticker
      let current_price : Option ℚ :=
        match latest_price with
        | some p => some p
        | none => st.initial_current_price
      let quote : QuoteResp := { c := current_price, pc := st.pc }
      let changes := calculate_changes (some quote) st.ytd_price st.ten_year_price
      Record.success
        { ticker := st.ticker
          company_name := st.company_name
          current_price := current_price
          eps := st.eps
          pe_ratio := st.pe_ratio
          dividend := st.dividend
          daily_change := changes.1
          ytd_change := changes.2.1
          ten_year_change := changes.2.2 }

/-- The accumulated state of a one-shot ("normal" mode) run: the rows to be
rendered, the tickers that fell back to stale cache data, and the cache
backing store. -/
structure OneShotResult : Type where
  rows : List Record
  failed_refreshes : List String
  store : CacheStore

/-- The fetch branch of the normal-mode loop (src/main.py, lines 224–244):
call `fetch_ticker_data`; on the success variant update the cache (when
enabled) and append the fresh record; on the failure variant, when caching is
enabled, try `get_cached_data_unchecked` — if a stale entry exists append its
payload and record the ticker in `failed_refreshes`, otherwise (or with
caching disabled) append the failure record itself.  An exception escaping
`fetch_ticker_data` would abort the run (`Except.error`). -/
def normal_mode_fetch (gw : Gateway) (s : Settings) (now : ℤ) (acc : OneShotResult)
    (ticker_obj : TickerObj) : Except ApiError OneShotResult :=
  match (fetch_ticker_data gw ticker_obj s).1 with
  | .error e => .error e
  | .ok fresh_data =>
      match fresh_data with
      | .success r =>
          let st' := if s.cache.enabled
            then update_cache ticker_obj.ticker (Record.success r) now acc.store
            else acc.store
          .ok { rows := acc.rows ++ [Record.success r]
                failed_refreshes := acc.failed_refreshes
                store := st' }
      | .failure ft fm =>
          if s.cache.enabled then
            match (get_cached_data_unchecked ticker_obj.ticker acc.store).1 with
            | some cached_data =>
                .ok { rows := acc.rows ++ [cached_data]
                      failed_refreshes := acc.failed_refreshes ++ [ticker_obj.ticker]
                      store := acc.store }
            | none =>
                .ok { rows := acc.rows ++ [Record.failure ft fm]
                      failed_refreshes := acc.failed_refreshes
                      store := acc.store }
          else
            .ok { rows := acc.rows ++ [Record.failure ft fm]
                  failed_refreshes := acc.failed_refreshes
                  store := acc.store }

/-- One iteration of the normal-mode per-ticker loop (src/main.py, lines
216–244): with caching enabled and no `--refresh` flag, a fresh cache hit is
appended directly (no network call); otherwise the fetch branch runs. -/
def normal_mode_step (gw : Gateway) (s : Settings) (refresh : Bool) (now : ℤ)
    (acc : OneShotResult) (ticker_obj : TickerObj) : Except ApiError OneShotResult :=
  if s.cache.enabled && !refresh then
    match (get_cached_data ticker_obj.ticker s.cache.interval (now : ℚ) acc.store).1 with
    | some cached_data => .ok { acc with rows := acc.rows ++ [cached_data] }
    | none => normal_mode_fetch gw s now acc ticker_obj
  else normal_mode_fetch gw s now acc ticker_obj

/-- Folding the normal-mode loop over the remaining tickers from a given
accumulated state. -/
def normal_mode_fold (gw : Gateway) (s : Settings) (refresh : Bool) (now : ℤ)
    (tickers : List TickerObj) (acc : Except ApiError OneShotResult) :
    Except ApiError OneShotResult :=
  tickers.foldl
    (fun a ticker_obj =>
      match a with
      | .error e => .error e
      | .ok x => normal_mode_step gw s refresh now x ticker_obj)
    acc

/-- The whole normal-mode run (src/main.py, lines 210–245): process every
ticker in listed order starting from empty row and warning lists over the
given backing store. -/
def normal_mode (gw : Gateway) (s : Settings) (refresh : Bool) (now : ℤ)
    (tickers : List TickerObj) (st : CacheStore) : Except ApiError OneShotResult :=
  normal_mode_fold gw s refresh now tickers
    (.ok { rows := [], failed_refreshes := [], store := st })

/-- The consolidated stale-fallback warning emitted after the table
(src/main.py, lines 246–252): the list of tickers printed, one per line,
under the warning header — exactly `failed_refreshes`. -/
def stale_fallback_warning (res : OneShotResult) : List String :=
  res.failed_refreshes

/-- One ticker update of a daemon-mode cycle (src/main.py, lines 61–75):
fetch; on the failure variant only log; on success `update_cache`; any
exception is caught (`except Exception`), logged, and skipped. -/
def daemon_step (gw : Gateway) (s : Settings) (now : ℤ) (st : CacheStore)
    (ticker_obj : TickerObj) : CacheStore :=
  match (fetch_ticker_data gw ticker_obj s).1 with
  | .error _ => st
  | .ok (Record.failure _ _) => st
  | .ok (Record.success r) => update_cache ticker_obj.ticker (Record.success r) now st

/-- One full pass of the daemon loop over all tickers (src/main.py, lines
59–77, one iteration of `while True`). -/
def daemon_cycle (gw : Gateway) (tickers : List TickerObj) (s : Settings) (now : ℤ)
    (st : CacheStore) : CacheStore :=
  tickers.foldl (daemon_step gw s now) st

/-! ## Helper lemmas -/

/-- The source's thrice-repeated conditional expression agrees with the
spec's `pct_change` rule. -/
theorem change_expr_eq_pct_change (current base : Option ℚ) :
    change_expr current base = pct_change current base := by
  cases current <;> cases base <;> simp [change_expr, pct_change, ite_not]

/-- On a present quote, `calculate_changes` applies the spec's `pct_change`
rule to each of the three (current, base) pairs. -/
theorem calculate_changes_some_eq (q : QuoteResp) (ytd_price ten_year_price : Option ℚ) :
    calculate_changes (some q) ytd_price ten_year_price =
      (pct_change q.c q.pc, pct_change q.c ytd_price, pct_change q.c ten_year_price) := by
  simp [calculate_changes, change_expr_eq_pct_change]

/-- `get_quote` never lets an exception escape: the handler covers the
gateway's failure signal. -/
theorem get_quote_ok (gw : Gateway) (t : String) :
    ∃ v, get_quote gw t = .ok v := by
  unfold get_quote
  cases h : gw.quote t with
  | ok q => exact ⟨some q, rfl⟩
  | error e => cases e; exact ⟨none, rfl⟩

/-- `get_profile` never lets an exception escape. -/
theorem get_profile_ok (gw : Gateway) (t : String) :
    ∃ v, get_profile gw t = .ok v := by
  unfold get_profile
  cases h : gw.company_profile2 t with
  | ok p => exact ⟨p.name, rfl⟩
  | error e => cases e; exact ⟨none, rfl⟩

/-- `get_financials` never lets an exception escape. -/
theorem get_financials_ok (gw : Gateway) (t : String) :
    ∃ v, get_financials gw t = .ok v := by
  unfold get_financials
  cases h : gw.company_basic_financials t with
  | ok f => exact ⟨_, rfl⟩
  | error e => cases e; exact ⟨none, rfl⟩

/-- `get_ytd_price` never lets an exception escape. -/
theorem get_ytd_price_ok (gw : Gateway) (t : String) :
    ∃ v, get_ytd_price gw t = .ok v := by
  unfold get_ytd_price
  cases h : gw.stock_candles t Window.ytd with
  | ok d =>
    by_cases hs : d.s = "ok"
    · exact ⟨d.c.head?, by simp [hs]⟩
    · exact ⟨none, by simp [hs]⟩
  | error e => cases e; exact ⟨none, rfl⟩

/-- `get_ten_year_price` never lets an exception escape. -/
theorem get_ten_year_price_ok (gw : Gateway) (t : String) :
    ∃ v, get_ten_year_price gw t = .ok v := by
  unfold get_ten_year_price
  cases h : gw.stock_candles t Window.tenYear with
  | ok d =>
    by_cases hs : d.s = "ok"
    · exact ⟨d.c.head?, by simp [hs]⟩
    · exact ⟨none, by simp [hs]⟩
  | error e => cases e; exact ⟨none, rfl⟩

/-- When the quote endpoint raises, the aggregator returns the failure
variant at once, having made only the quote call. -/
theorem fetch_ticker_data_quote_error (gw : Gateway) (obj : TickerObj) (s : Settings)
    (hq : gw.quote obj.ticker = .error ApiError.finnhubAPIException) :
    fetch_ticker_data gw obj s =
      (.ok (Record.failure obj.ticker "Data unavailable"), [GatewayCall.quote obj.ticker]) := by
  have h1 : get_quote gw obj.ticker = .ok none := by simp [get_quote, hq]
  unfold fetch_ticker_data
  dsimp only
  rw [h1]
  rfl

/-- Full characterisation of `fetch_ticker_data` when the quote succeeds and
no user-provided name exists: profile, financials, and the flag-gated
historical closes are fetched, in order. -/
theorem fetch_ticker_data_quote_ok_unnamed (gw : Gateway) (obj : TickerObj) (s : Settings)
    (q : QuoteResp) (pv : Option String) (fv : Option FinMetrics) (yv tv : Option ℚ)
    (hq : gw.quote obj.ticker = .ok q)
    (hn : obj.name = none)
    (hp : get_profile gw obj.ticker = .ok pv)
    (hf : get_financials gw obj.ticker = .ok fv)
    (hy : get_ytd_price gw obj.ticker = .ok yv)
    (ht : get_ten_year_price gw obj.ticker = .ok tv) :
    fetch_ticker_data gw obj s =
      (.ok (Record.success
        { ticker := obj.ticker
          company_name := pv
          current_price := q.c
          eps := Option.bind fv FinMetrics.eps
          pe_ratio := Option.bind fv FinMetrics.pe
          dividend := Option.bind fv FinMetrics.dividend
          daily_change := (calculate_changes (some q)
            (if s.columns.ytd_change then yv else none)
            (if s.columns.ten_year_change then tv else none)).1
          ytd_change := (calculate_changes (some q)
            (if s.columns.ytd_change then yv else none)
            (if s.columns.ten_year_change then tv else none)).2.1
          ten_year_change := (calculate_changes (some q)
            (if s.columns.ytd_change then yv else none)
            (if s.columns.ten_year_change then tv else none)).2.2 }),
       [GatewayCall.quote obj.ticker, GatewayCall.profile obj.ticker,
        GatewayCall.financials obj.ticker] ++
         (if s.columns.ytd_change then [GatewayCall.candles obj.ticker Window.ytd] else []) ++
         (if s.columns.ten_year_change then [GatewayCall.candles obj.ticker Window.tenYear] else [])) := by
  have h1 : get_quote gw obj.ticker = .ok (some q) := by simp [get_quote, hq]
  unfold fetch_ticker_data
  dsimp only
  rw [h1, hn]
  dsimp only [bindStep]
  rw [hp]
  dsimp only [bindStep]
  rw [hf]
  dsimp only [bindStep]
  cases hyf : s.columns.ytd_change <;> cases htf : s.columns.ten_year_change
  · rfl
  · rw [ht]; rfl
  · rw [hy]; rfl
  · rw [hy, ht]; rfl

/-- Full characterisation of `fetch_ticker_data` when the quote succeeds and a
user-provided name exists: the profile endpoint is never called. -/
theorem fetch_ticker_data_quote_ok_named (gw : Gateway) (obj : TickerObj) (s : Settings)
    (q : QuoteResp) (n : String) (fv : Option FinMetrics) (yv tv : Option ℚ)
    (hq : gw.quote obj.ticker = .ok q)
    (hn : obj.name = some n)
    (hf : get_financials gw obj.ticker = .ok fv)
    (hy : get_ytd_price gw obj.ticker = .ok yv)
    (ht : get_ten_year_price gw obj.ticker = .ok tv) :
    fetch_ticker_data gw obj s =
      (.ok (Record.success
        { ticker := obj.ticker
          company_name := some n
          current_price := q.c
          eps := Option.bind fv FinMetrics.eps
          pe_ratio := Option.bind fv FinMetrics.pe
          dividend := Option.bind fv FinMetrics.dividend
          daily_change := (calculate_changes (some q)
            (if s.columns.ytd_change then yv else none)
            (if s.columns.ten_year_change then tv else none)).1
          ytd_change := (calculate_changes (some q)
            (if s.columns.ytd_change then yv else none)
            (if s.columns.ten_year_change then tv else none)).2.1
          ten_year_change := (calculate_changes (some q)
            (if s.columns.ytd_change then yv else none)
            (if s.columns.ten_year_change then tv else none)).2.2 }),
       [GatewayCall.quote obj.ticker, GatewayCall.financials obj.ticker] ++
         (if s.columns.ytd_change then [GatewayCall.candles obj.ticker Window.ytd] else []) ++
         (if s.columns.ten_year_change then [GatewayCall.candles obj.ticker Window.tenYear] else [])) := by
  have h1 : get_quote gw obj.ticker = .ok (some q) := by simp [get_quote, hq]
  unfold fetch_ticker_data
  dsimp only
  rw [h1, hn]
  dsimp only [bindStep]
  rw [hf]
  dsimp only [bindStep]
  cases hyf : s.columns.ytd_change <;> cases htf : s.columns.ten_year_change
  · rfl
  · rw [ht]; rfl
  · rw [hy]; rfl
  · rw [hy, ht]; rfl

/-- When the quote endpoint raises, `fetch_static_data` returns the failure
variant at once, having made only the quote call. -/
theorem fetch_static_data_quote_error (gw : Gateway) (obj : TickerObj) (s : Settings)
    (hq : gw.quote obj.ticker = .error ApiError.finnhubAPIException) :
    fetch_static_data gw obj s =
      (.ok (StaticResult.failure obj.ticker "Data unavailable"), [GatewayCall.quote obj.ticker]) := by
  have h1 : get_quote gw obj.ticker = .ok none := by simp [get_quote, hq]
  unfold fetch_static_data
  dsimp only
  rw [h1]
  rfl

/-- Full characterisation of `fetch_static_data` when the quote succeeds and
no user-provided name exists. -/
theorem fetch_static_data_quote_ok_unnamed (gw : Gateway) (obj : TickerObj) (s : Settings)
    (q : QuoteResp) (pv : Option String) (fv : Option FinMetrics) (yv tv : Option ℚ)
    (hq : gw.quote obj.ticker = .ok q)
    (hn : obj.name = none)
    (hp : get_profile gw obj.ticker = .ok pv)
    (hf : get_financials gw obj.ticker = .ok fv)
    (hy : get_ytd_price gw obj.ticker = .ok yv)
    (ht : get_ten_year_price gw obj.ticker = .ok tv) :
    fetch_static_data gw obj s =
      (.ok (StaticResult.success
        { ticker := obj.ticker
          company_name := pv
          pc := q.pc
          initial_current_price := q.c
          eps := Option.bind fv FinMetrics.eps
          pe_ratio := Option.bind fv FinMetrics.pe
          dividend := Option.bind fv FinMetrics.dividend
          ytd_price := if s.columns.ytd_change then yv else none
          ten_year_price := if s.columns.ten_year_change then tv else none }),
       [GatewayCall.quote obj.ticker, GatewayCall.profile obj.ticker,
        GatewayCall.financials obj.ticker] ++
         (if s.columns.ytd_change then [GatewayCall.candles obj.ticker Window.ytd] else []) ++
         (if s.columns.ten_year_change then [GatewayCall.candles obj.ticker Window.tenYear] else [])) := by
  have h1 : get_quote gw obj.ticker = .ok (some q) := by simp [get_quote, hq]
  unfold fetch_static_data
  dsimp only
  rw [h1, hn]
  dsimp only [bindStep]
  rw [hp]
  dsimp only [bindStep]
  rw [hf]
  dsimp only [bindStep]
  cases hyf : s.columns.ytd_change <;> cases htf : s.columns.ten_year_change
  · rfl
  · rw [ht]; rfl
  · rw [hy]; rfl
  · rw [hy, ht]; rfl

/-- Full characterisation of `fetch_static_data` when the quote succeeds and a
user-provided name exists: the profile endpoint is never called. -/
theorem fetch_static_data_quote_ok_named (gw : Gateway) (obj : TickerObj) (s : Settings)
    (q : QuoteResp) (n : String) (fv : Option FinMetrics) (yv tv : Option ℚ)
    (hq : gw.quote obj.ticker = .ok q)
    (hn : obj.name = some n)
    (hf : get_financials gw obj.ticker = .ok fv)
    (hy : get_ytd_price gw obj.ticker = .ok yv)
    (ht : get_ten_year_price gw obj.ticker = .ok tv) :
    fetch_static_data gw obj s =
      (.ok (StaticResult.success
        { ticker := obj.ticker
          company_name := some n
          pc := q.pc
          initial_current_price := q.c
          eps := Option.bind fv FinMetrics.eps
          pe_ratio := Option.bind fv FinMetrics.pe
          dividend := Option.bind fv FinMetrics.dividend
          ytd_price := if s.columns.ytd_change then yv else none
          ten_year_price := if s.columns.ten_year_change then tv else none }),
       [GatewayCall.quote obj.ticker, GatewayCall.financials obj.ticker] ++
         (if s.columns.ytd_change then [GatewayCall.candles obj.ticker Window.ytd] else []) ++
         (if s.columns.ten_year_change then [GatewayCall.candles obj.ticker Window.tenYear] else [])) := by
  have h1 : get_quote gw obj.ticker = .ok (some q) := by simp [get_quote, hq]
  unfold fetch_static_data
  dsimp only
  rw [h1, hn]
  dsimp only [bindStep]
  rw [hf]
  dsimp only [bindStep]
  cases hyf : s.columns.ytd_change <;> cases htf : s.columns.ten_year_change
  · rfl
  · rw [ht]; rfl
  · rw [hy]; rfl
  · rw [hy, ht]; rfl

/-! ## Concrete objects used by witnesses and counterexamples -/

/-- A concrete success-variant payload. -/
def recW : Record :=
  Record.success
    { ticker := "AAPL", company_name := some "Apple Inc.", current_price := some 100
      eps := none, pe_ratio := none, dividend := none
      daily_change := none, ytd_change := none, ten_year_change := none }

/-- A concrete cache entry captured at timestamp 0. -/
def entryW : CacheEntry := { data := recW, timestamp := 0 }

/-- A concrete one-entry backing store. -/
def storeW : CacheStore := some (fun t => if t = "AAPL" then some entryW else none)

/-! ## Claim theorems -/

/-- Claim C4: `get_cached_data` returns the cached payload exactly when the
entry's age `now - captured_at` (seconds) is at most `interval * 60`, with the
boundary counting as fresh, and returns absent when the age exceeds the bound
or no entry exists. -/
theorem cache_freshness_boundary (st : CacheStore) (ticker : String) (interval : ℤ) (now : ℚ) :
    (∀ e : CacheEntry, load_cache st ticker = some e →
      ((get_cached_data ticker interval now st).1 = some e.data ↔
        now - (e.timestamp : ℚ) ≤ (interval : ℚ) * 60) ∧
      ((get_cached_data ticker interval now st).1 = none ↔
        (interval : ℚ) * 60 < now - (e.timestamp : ℚ))) ∧
    (load_cache st ticker = none → (get_cached_data ticker interval now st).1 = none) := by
  constructor
  · intro e he
    unfold get_cached_data
    dsimp only
    rw [he]
    dsimp only
    by_cases h : now - (e.timestamp : ℚ) ≤ (interval : ℚ) * 60
    · rw [if_pos h]
      exact ⟨⟨fun _ => h, fun _ => rfl⟩,
        iff_of_false (by simp) (not_lt.mpr h)⟩
    · rw [if_neg h]
      exact ⟨iff_of_false (by simp) h, iff_of_true rfl (not_le.mp h)⟩
  · intro he
    unfold get_cached_data
    dsimp only
    rw [he]

/-- Claim C4 witness: an entry captured exactly `5 * 60` seconds before "now"
is still returned (the boundary is inclusive). -/
theorem cache_freshness_boundary_witness :
    (get_cached_data "AAPL" 5 300 storeW).1 = some recW := by
  have h := ((cache_freshness_boundary storeW "AAPL" 5 300).1 entryW rfl).1.mpr
    (by norm_num [entryW])
  exact h

/-- Claim C6: `update_cache` followed immediately by
`get_cached_data_unchecked` on the same symbol returns the stored payload
exactly, every field (including absent ones) preserved. -/
theorem cache_round_trip (st : CacheStore) (sym : String) (r : FinRecord) (now : ℤ) :
    (get_cached_data_unchecked sym (update_cache sym (Record.success r) now st)).1 =
      some (Record.success r) := by
  simp [get_cached_data_unchecked, update_cache, save_cache, load_cache]

/-- Claim C10: `update_cache` leaves every other symbol's entry unchanged,
and the two read operations return the backing store exactly as they found
it, whether or not they find an entry and whatever its age. -/
theorem cache_frame :
    (∀ (st : CacheStore) (sym t' : String) (payload : Record) (now : ℤ),
      t' ≠ sym →
      load_cache (update_cache sym payload now st) t' = load_cache st t') ∧
    (∀ (st : CacheStore) (ticker : String) (interval : ℤ) (now : ℚ),
      (get_cached_data ticker interval now st).2 = st) ∧
    (∀ (st : CacheStore) (ticker : String),
      (get_cached_data_unchecked ticker st).2 = st) := by
  refine ⟨?_, ?_, ?_⟩
  · intro st sym t' payload now hne
    simp [update_cache, save_cache, load_cache, if_neg hne]
  · intro st ticker interval now
    unfold get_cached_data
    dsimp only
    cases h : load_cache st ticker
    · rfl
    · dsimp only
      split_ifs <;> rfl
  · intro st ticker
    unfold get_cached_data_unchecked
    dsimp only
    cases h : load_cache st ticker <;> rfl

/-- Claim C10 witness: updating `"AAPL"` leaves `"MSFT"`'s entry unchanged. -/
theorem cache_frame_witness :
    load_cache (update_cache "AAPL" recW 0 storeW) "MSFT" = load_cache storeW "MSFT" :=
  cache_frame.1 storeW "AAPL" "MSFT" recW 0 (by decide)

/-- Claim C7: the change-calculation rule is total — `None` whenever an input
is absent or the base is zero, else `((current - base) / base) * 100` — the
source's `calculate_changes` applies exactly that rule to its three pairs,
the spec's four sample points evaluate as stated, and a `None` quote yields
all three changes `None`. -/
theorem change_calc_totality :
    (∀ (q : QuoteResp) (ytd_price ten_year_price : Option ℚ),
      calculate_changes (some q) ytd_price ten_year_price =
        (pct_change q.c q.pc, pct_change q.c ytd_price, pct_change q.c ten_year_price)) ∧
    pct_change none (some 100) = none ∧
    pct_change (some 100) none = none ∧
    pct_change (some 100) (some 0) = none ∧
    pct_change (some 110) (some 100) = some 10 ∧
    (∀ ytd_price ten_year_price : Option ℚ,
      calculate_changes none ytd_price ten_year_price = (none, none, none)) := by
  refine ⟨calculate_changes_some_eq, rfl, rfl, ?_, ?_, fun _ _ => rfl⟩
  · norm_num [pct_change]
  · norm_num [pct_change]

/-- Claim C5: for a success-variant snapshot, the rendered current price is
the live streamed price when the LivePriceTable has one and the snapshot's
baseline otherwise, and all three changes are recomputed from that effective
current price against the snapshot's stored base prices. -/
theorem watch_live_price_precedence (table : LivePriceTable) (st : StaticRecord) :
    (∀ p : ℚ, get_latest_price table st.ticker = some p →
      watch_render_row table (StaticResult.success st) =
        Record.success
          { ticker := st.ticker
            company_name := st.company_name
            current_price := some p
            eps := st.eps
            pe_ratio := st.pe_ratio
            dividend := st.dividend
            daily_change := pct_change (some p) st.pc
            ytd_change := pct_change (some p) st.ytd_price
            ten_year_change := pct_change (some p) st.ten_year_price }) ∧
    (get_latest_price table st.ticker = none →
      watch_render_row table (StaticResult.success st) =
        Record.success
          { ticker := st.ticker
            company_name := st.company_name
            current_price := st.initial_current_price
            eps := st.eps
            pe_ratio := st.pe_ratio
            dividend := st.dividend
            daily_change := pct_change st.initial_current_price st.pc
            ytd_change := pct_change st.initial_current_price st.ytd_price
            ten_year_change := pct_change st.initial_current_price st.ten_year_price }) := by
  constructor
  · intro p hp
    unfold watch_render_row
    dsimp only
    rw [hp]
    dsimp only
    rw [calculate_changes_some_eq]
  · intro hp
    unfold watch_render_row
    dsimp only
    rw [hp]
    dsimp only
    rw [calculate_changes_some_eq]

/-- A live-price table holding 105 for AAPL. -/
def tableW : LivePriceTable := fun t => if t = "AAPL" then some 105 else none

/-- A concrete success-variant static snapshot with baseline price 100. -/
def staticW : StaticRecord :=
  { ticker := "AAPL", company_name := some "Apple Inc.", pc := some 100
    initial_current_price := some 100, eps := none, pe_ratio := none, dividend := none
    ytd_price := some 90, ten_year_price := some 50 }

/-- Claim C5 witness: with a streamed price of 105 over a baseline of 100,
the rendered row shows 105 and the changes recomputed from it. -/
theorem watch_live_price_precedence_witness :
    watch_render_row tableW (StaticResult.success staticW) =
      Record.success
        { ticker := "AAPL", company_name := some "Apple Inc.", current_price := some 105
          eps := none, pe_ratio := none, dividend := none
          daily_change := some 5, ytd_change := some (50 / 3)
          ten_year_change := some 110 } := by
  have h := (watch_live_price_precedence tableW staticW).1 105 rfl
  rw [h]
  norm_num [staticW, pct_change]

/-- The gateway as seen when a symbol is delisted or nonexistent on the real
upstream: the quote endpoint answers normally but with a zero current price,
and the other endpoints answer normally too. -/
def gwZero : Gateway :=
  { quote := fun _ => .ok { c := some 0, pc := some 100 }
    company_profile2 := fun _ => .ok { name := some "Zero Corp" }
    company_basic_financials := fun _ =>
      .ok { metric := some { epsTTM := some 1, peTTM := some 2, currentDividendYieldTTM := some 3 } }
    stock_candles := fun _ _ => .ok { s := "ok", c := [50] } }

/-- A ticker object with no user-provided name. -/
def objZero : TickerObj := { ticker := "ZERO", name := none }

/-- Settings with every optional column enabled and caching on. -/
def settingsAll : Settings :=
  { columns := { eps := true, pe_ratio := true, dividend := true
                 ytd_change := true, ten_year_change := true }
    cache := { enabled := true, interval := 60 }
    watch_interval := 5 }

/-- Claim C1 counterexample: a quote whose current price is zero is *not*
treated as unobtainable — `fetch_ticker_data` returns the success variant
(current price 0) and goes on to call the profile, financials and both
historical-closes endpoints. -/
theorem aggregator_zero_price_not_failure :
    (fetch_ticker_data gwZero objZero settingsAll).1 =
      .ok (Record.success
        { ticker := "ZERO", company_name := some "Zero Corp", current_price := some 0
          eps := some 1, pe_ratio := some 2, dividend := some 3
          daily_change := some (-100), ytd_change := some (-100)
          ten_year_change := some (-100) }) ∧
    (fetch_ticker_data gwZero objZero settingsAll).2 =
      [GatewayCall.quote "ZERO", GatewayCall.profile "ZERO", GatewayCall.financials "ZERO",
       GatewayCall.candles "ZERO" Window.ytd, GatewayCall.candles "ZERO" Window.tenYear] := by
  have h := fetch_ticker_data_quote_ok_unnamed gwZero objZero settingsAll
    ⟨some 0, some 100⟩ (some "Zero Corp") (some ⟨some 1, some 2, some 3⟩) (some 50) (some 50)
    rfl rfl rfl rfl rfl rfl
  constructor
  · rw [h]
    norm_num [calculate_changes, change_expr, settingsAll, objZero]
  · rw [h]
    rfl

/-- Claim C1 (amended): when the quote fetch is unobtainable (the upstream
quote endpoint signals an error), `fetch_ticker_data` returns the failure
variant with the generic "Data unavailable" message immediately and makes no
further gateway call.  (A zero current price is not checked and does not
short-circuit.) -/
theorem aggregator_short_circuit (gw : Gateway) (obj : TickerObj) (s : Settings)
    (hq : gw.quote obj.ticker = .error ApiError.finnhubAPIException) :
    fetch_ticker_data gw obj s =
      (.ok (Record.failure obj.ticker "Data unavailable"), [GatewayCall.quote obj.ticker]) :=
  fetch_ticker_data_quote_error gw obj s hq

/-- A gateway whose quote endpoint always signals the API exception. -/
def gwDown : Gateway :=
  { quote := fun _ => .error ApiError.finnhubAPIException
    company_profile2 := fun _ => .ok { name := some "X Corp" }
    company_basic_financials := fun _ => .ok { metric := none }
    stock_candles := fun _ _ => .ok { s := "no_data", c := [] } }

/-- Claim C1 witness: a failing quote endpoint yields the failure variant and
a one-call trace. -/
theorem aggregator_short_circuit_witness :
    fetch_ticker_data gwDown objZero settingsAll =
      (.ok (Record.failure "ZERO" "Data unavailable"), [GatewayCall.quote "ZERO"]) :=
  aggregator_short_circuit gwDown objZero settingsAll rfl

/-- Claim C2: for every gateway behaviour — any response or any signalled
failure on any endpoint — `fetch_ticker_data` returns a record rather than
letting an exception escape: every upstream failure has been converted to
`None` fields or the failure variant below the aggregator boundary. -/
theorem aggregator_never_raises (gw : Gateway) (obj : TickerObj) (s : Settings) :
    ∃ r : Record, (fetch_ticker_data gw obj s).1 = .ok r := by
  cases hq : gw.quote obj.ticker with
  | error e =>
      cases e
      exact ⟨Record.failure obj.ticker "Data unavailable",
        by rw [fetch_ticker_data_quote_error gw obj s hq]⟩
  | ok q =>
      obtain ⟨fv, hf⟩ := get_financials_ok gw obj.ticker
      obtain ⟨yv, hy⟩ := get_ytd_price_ok gw obj.ticker
      obtain ⟨tv, ht⟩ := get_ten_year_price_ok gw obj.ticker
      cases hn : obj.name with
      | some n =>
          exact ⟨_, by rw [fetch_ticker_data_quote_ok_named gw obj s q n fv yv tv hq hn hf hy ht]⟩
      | none =>
          obtain ⟨pv, hp⟩ := get_profile_ok gw obj.ticker
          exact ⟨_,
            by rw [fetch_ticker_data_quote_ok_unnamed gw obj s q pv fv yv tv hq hn hp hf hy ht]⟩

/-- The call trace of `fetch_ticker_data` is either the single quote call, or
a candle-free base followed by the two flag-gated historical-closes calls. -/
theorem fetch_ticker_data_calls_desc (gw : Gateway) (obj : TickerObj) (s : Settings) :
    (fetch_ticker_data gw obj s).2 = [GatewayCall.quote obj.ticker] ∨
    ∃ base : List GatewayCall,
      (base = [GatewayCall.quote obj.ticker, GatewayCall.profile obj.ticker,
               GatewayCall.financials obj.ticker] ∨
       base = [GatewayCall.quote obj.ticker, GatewayCall.financials obj.ticker]) ∧
      (fetch_ticker_data gw obj s).2 =
        base ++ (if s.columns.ytd_change then [GatewayCall.candles obj.ticker Window.ytd] else [])
             ++ (if s.columns.ten_year_change
                 then [GatewayCall.candles obj.ticker Window.tenYear] else []) := by
  cases hq : gw.quote obj.ticker with
  | error e =>
      cases e
      left
      rw [fetch_ticker_data_quote_error gw obj s hq]
  | ok q =>
      obtain ⟨fv, hf⟩ := get_financials_ok gw obj.ticker
      obtain ⟨yv, hy⟩ := get_ytd_price_ok gw obj.ticker
      obtain ⟨tv, ht⟩ := get_ten_year_price_ok gw obj.ticker
      right
      cases hn : obj.name with
      | some n =>
          refine ⟨_, Or.inr rfl, ?_⟩
          rw [fetch_ticker_data_quote_ok_named gw obj s q n fv yv tv hq hn hf hy ht]
      | none =>
          obtain ⟨pv, hp⟩ := get_profile_ok gw obj.ticker
          refine ⟨_, Or.inl rfl, ?_⟩
          rw [fetch_ticker_data_quote_ok_unnamed gw obj s q pv fv yv tv hq hn hp hf hy ht]

/-- Same call-trace description for `fetch_static_data`. -/
theorem fetch_static_data_calls_desc (gw : Gateway) (obj : TickerObj) (s : Settings) :
    (fetch_static_data gw obj s).2 = [GatewayCall.quote obj.ticker] ∨
    ∃ base : List GatewayCall,
      (base = [GatewayCall.quote obj.ticker, GatewayCall.profile obj.ticker,
               GatewayCall.financials obj.ticker] ∨
       base = [GatewayCall.quote obj.ticker, GatewayCall.financials obj.ticker]) ∧
      (fetch_static_data gw obj s).2 =
        base ++ (if s.columns.ytd_change then [GatewayCall.candles obj.ticker Window.ytd] else [])
             ++ (if s.columns.ten_year_change
                 then [GatewayCall.candles obj.ticker Window.tenYear] else []) := by
  cases hq : gw.quote obj.ticker with
  | error e =>
      cases e
      left
      rw [fetch_static_data_quote_error gw obj s hq]
  | ok q =>
      obtain ⟨fv, hf⟩ := get_financials_ok gw obj.ticker
      obtain ⟨yv, hy⟩ := get_ytd_price_ok gw obj.ticker
      obtain ⟨tv, ht⟩ := get_ten_year_price_ok gw obj.ticker
      right
      cases hn : obj.name with
      | some n =>
          refine ⟨_, Or.inr rfl, ?_⟩
          rw [fetch_static_data_quote_ok_named gw obj s q n fv yv tv hq hn hf hy ht]
      | none =>
          obtain ⟨pv, hp⟩ := get_profile_ok gw obj.ticker
          refine ⟨_, Or.inl rfl, ?_⟩
          rw [fetch_static_data_quote_ok_unnamed gw obj s q pv fv yv tv hq hn hp hf hy ht]

/-- A call trace of the described shape contains an historical-closes call
only when the corresponding wants flag is set. -/
theorem calls_shape_candles (tk : String) (s : Settings) (log : List GatewayCall)
    (h : log = [GatewayCall.quote tk] ∨
      ∃ base : List GatewayCall,
        (base = [GatewayCall.quote tk, GatewayCall.profile tk, GatewayCall.financials tk] ∨
         base = [GatewayCall.quote tk, GatewayCall.financials tk]) ∧
        log = base ++ (if s.columns.ytd_change then [GatewayCall.candles tk Window.ytd] else [])
                  ++ (if s.columns.ten_year_change
                      then [GatewayCall.candles tk Window.tenYear] else [])) :
    (GatewayCall.candles tk Window.ytd ∈ log → s.columns.ytd_change = true) ∧
    (GatewayCall.candles tk Window.tenYear ∈ log → s.columns.ten_year_change = true) ∧
    (s.columns.ytd_change = false → s.columns.ten_year_change = false →
      ∀ (t : String) (w : Window), GatewayCall.candles t w ∉ log) := by
  rcases h with h | ⟨base, hbase, h⟩
  · subst h
    refine ⟨?_, ?_, ?_⟩ <;> intros <;> simp_all
  · subst h
    cases hyf : s.columns.ytd_change <;> cases htf : s.columns.ten_year_change <;>
      rcases hbase with hb | hb <;> subst hb <;>
      refine ⟨?_, ?_, ?_⟩ <;> intros <;> simp_all

/-- Claim C8: the aggregator calls the historical-closes operation for the
year-start close only when `wants.ytd_change` holds and for the ten-year
close only when `wants.ten_year_change` holds, and with both flags off it
never calls the historical-closes operation at all — for both
`fetch_ticker_data` and `fetch_static_data`. -/
theorem conditional_historical_fetch (gw : Gateway) (obj : TickerObj) (s : Settings) :
    (GatewayCall.candles obj.ticker Window.ytd ∈ (fetch_ticker_data gw obj s).2 →
      s.columns.ytd_change = true) ∧
    (GatewayCall.candles obj.ticker Window.tenYear ∈ (fetch_ticker_data gw obj s).2 →
      s.columns.ten_year_change = true) ∧
    (s.columns.ytd_change = false → s.columns.ten_year_change = false →
      ∀ (t : String) (w : Window), GatewayCall.candles t w ∉ (fetch_ticker_data gw obj s).2) ∧
    (GatewayCall.candles obj.ticker Window.ytd ∈ (fetch_static_data gw obj s).2 →
      s.columns.ytd_change = true) ∧
    (GatewayCall.candles obj.ticker Window.tenYear ∈ (fetch_static_data gw obj s).2 →
      s.columns.ten_year_change = true) ∧
    (s.columns.ytd_change = false → s.columns.ten_year_change = false →
      ∀ (t : String) (w : Window), GatewayCall.candles t w ∉ (fetch_static_data gw obj s).2) := by
  have h1 := calls_shape_candles obj.ticker s _ (fetch_ticker_data_calls_desc gw obj s)
  have h2 := calls_shape_candles obj.ticker s _ (fetch_static_data_calls_desc gw obj s)
  exact ⟨h1.1, h1.2.1, h1.2.2, h2.1, h2.2.1, h2.2.2⟩

/-- Settings with both historical-change columns off. -/
def sNoHist : Settings :=
  { columns := { eps := true, pe_ratio := true, dividend := true
                 ytd_change := false, ten_year_change := false }
    cache := { enabled := false, interval := 60 }
    watch_interval := 5 }

/-- Claim C8 witness: with both flags off, the aggregator's trace contains no
historical-closes call. -/
theorem conditional_historical_fetch_witness :
    GatewayCall.candles "ZERO" Window.ytd ∉ (fetch_ticker_data gwZero objZero sNoHist).2 :=
  (conditional_historical_fetch gwZero objZero sNoHist).2.2.1 rfl rfl "ZERO" Window.ytd

/-- The fetch branch never loses a previously recorded stale-fallback
ticker. -/
theorem normal_mode_fetch_failed_mono (gw : Gateway) (s : Settings) (now : ℤ)
    (acc : OneShotResult) (obj : TickerObj) (res : OneShotResult) (x : String)
    (hx : x ∈ acc.failed_refreshes)
    (h : normal_mode_fetch gw s now acc obj = .ok res) :
    x ∈ res.failed_refreshes := by
  unfold normal_mode_fetch at h
  split at h
  · simp at h
  · split at h
    · cases h
      exact hx
    · split at h
      · split at h
        · cases h
          exact List.mem_append_left _ hx
        · cases h
          exact hx
      · cases h
        exact hx

/-- A normal-mode loop iteration never loses a previously recorded
stale-fallback ticker. -/
theorem normal_mode_step_failed_mono (gw : Gateway) (s : Settings) (refresh : Bool) (now : ℤ)
    (acc : OneShotResult) (obj : TickerObj) (res : OneShotResult) (x : String)
    (hx : x ∈ acc.failed_refreshes)
    (h : normal_mode_step gw s refresh now acc obj = .ok res) :
    x ∈ res.failed_refreshes := by
  unfold normal_mode_step at h
  split at h
  · split at h
    · cases h
      exact hx
    · exact normal_mode_fetch_failed_mono gw s now acc obj res x hx h
  · exact normal_mode_fetch_failed_mono gw s now acc obj res x hx h

/-- Once the loop has aborted with an exception it stays aborted. -/
theorem normal_mode_fold_error (gw : Gateway) (s : Settings) (refresh : Bool) (now : ℤ)
    (rest : List TickerObj) (e : ApiError) :
    normal_mode_fold gw s refresh now rest (.error e) = .error e := by
  induction rest with
  | nil => rfl
  | cons o rest ih => exact ih

/-- A recorded stale-fallback ticker survives the rest of the loop. -/
theorem normal_mode_fold_failed_mono (gw : Gateway) (s : Settings) (refresh : Bool) (now : ℤ) :
    ∀ (rest : List TickerObj) (acc res : OneShotResult) (x : String),
      x ∈ acc.failed_refreshes →
      normal_mode_fold gw s refresh now rest (.ok acc) = .ok res →
      x ∈ res.failed_refreshes := by
  intro rest
  induction rest with
  | nil =>
      intro acc res x hx h
      have h' : (Except.ok acc : Except ApiError OneShotResult) = .ok res := h
      cases h'
      exact hx
  | cons o rest ih =>
      intro acc res x hx h
      have hfold : normal_mode_fold gw s refresh now rest
          (normal_mode_step gw s refresh now acc o) = .ok res := h
      cases hstep : normal_mode_step gw s refresh now acc o with
      | error e =>
          rw [hstep, normal_mode_fold_error] at hfold
          simp at hfold
      | ok a' =>
          rw [hstep] at hfold
          exact ih a' res x (normal_mode_step_failed_mono gw s refresh now acc o a' x hx hstep) hfold

/-- Claim C3: in one-shot mode with caching enabled, when the fresh fetch
returns the failure variant, a cached entry of any age is appended in its
place and the symbol recorded for the consolidated stale-fallback warning;
with no cache entry the failure record itself is appended; and a recorded
symbol survives to the end-of-run warning list. -/
theorem stale_fallback_precedence :
    (∀ (gw : Gateway) (s : Settings) (now : ℤ) (acc : OneShotResult) (obj : TickerObj)
       (ft fm : String),
      s.cache.enabled = true →
      (fetch_ticker_data gw obj s).1 = .ok (Record.failure ft fm) →
      (∀ e : CacheEntry, load_cache acc.store obj.ticker = some e →
        normal_mode_fetch gw s now acc obj =
          .ok { rows := acc.rows ++ [e.data]
                failed_refreshes := acc.failed_refreshes ++ [obj.ticker]
                store := acc.store }) ∧
      (load_cache acc.store obj.ticker = none →
        normal_mode_fetch gw s now acc obj =
          .ok { rows := acc.rows ++ [Record.failure ft fm]
                failed_refreshes := acc.failed_refreshes
                store := acc.store })) ∧
    (∀ (gw : Gateway) (s : Settings) (refresh : Bool) (now : ℤ) (rest : List TickerObj)
       (acc res : OneShotResult) (x : String),
      x ∈ acc.failed_refreshes →
      normal_mode_fold gw s refresh now rest (.ok acc) = .ok res →
      x ∈ stale_fallback_warning res) := by
  constructor
  · intro gw s now acc obj ft fm hen hfetch
    constructor
    · intro e he
      have hu : (get_cached_data_unchecked obj.ticker acc.store).1 = some e.data := by
        unfold get_cached_data_unchecked
        dsimp only
        rw [he]
      unfold normal_mode_fetch
      rw [hfetch]
      dsimp only
      rw [if_pos hen, hu]
    · intro he
      have hu : (get_cached_data_unchecked obj.ticker acc.store).1 = none := by
        unfold get_cached_data_unchecked
        dsimp only
        rw [he]
      unfold normal_mode_fetch
      rw [hfetch]
      dsimp only
      rw [if_pos hen, hu]
  · intro gw s refresh now rest acc res x hx h
    exact normal_mode_fold_failed_mono gw s refresh now rest acc res x hx h

/-- A ticker object for AAPL with no user-provided name. -/
def objAAPL : TickerObj := { ticker := "AAPL", name := none }

/-- An empty accumulated one-shot state over the one-entry store. -/
def accW : OneShotResult := { rows := [], failed_refreshes := [], store := storeW }

/-- Claim C3 witness: with the quote endpoint down and a stale entry for
AAPL, the loop appends the stale payload and records AAPL as a stale
fallback. -/
theorem stale_fallback_precedence_witness :
    normal_mode_fetch gwDown settingsAll 0 accW objAAPL =
      .ok { rows := [recW], failed_refreshes := ["AAPL"], store := storeW } :=
  (stale_fallback_precedence.1 gwDown settingsAll 0 accW objAAPL "AAPL"
    "Data unavailable" rfl rfl).1 entryW rfl

/-- The invariant of claim C9: no cache entry holds the failure variant. -/
def NoFailureStored (st : CacheStore) : Prop :=
  ∀ (t : String) (e : CacheEntry), load_cache st t = some e →
    ∀ (tk msg : String), e.data ≠ Record.failure tk msg

/-- Storing a success-variant payload preserves the invariant. -/
theorem update_cache_success_preserves (st : CacheStore) (t : String) (r : FinRecord)
    (now : ℤ) (h : NoFailureStored st) :
    NoFailureStored (update_cache t (Record.success r) now st) := by
  intro t' e he tk msg
  have he' : (if t' = t then some (CacheEntry.mk (Record.success r) now)
      else load_cache st t') = some e := he
  split at he'
  · cases he'
    simp
  · exact h t' e he' tk msg

/-- The fetch branch of the normal-mode loop preserves the invariant. -/
theorem normal_mode_fetch_store (gw : Gateway) (s : Settings) (now : ℤ)
    (acc : OneShotResult) (obj : TickerObj) (res : OneShotResult)
    (h : normal_mode_fetch gw s now acc obj = .ok res)
    (hst : NoFailureStored acc.store) :
    NoFailureStored res.store := by
  unfold normal_mode_fetch at h
  split at h
  · simp at h
  · split at h
    · cases h
      dsimp only
      split
      · exact update_cache_success_preserves _ _ _ _ hst
      · exact hst
    · split at h
      · split at h
        · cases h
          exact hst
        · cases h
          exact hst
      · cases h
        exact hst

/-- A normal-mode loop iteration preserves the invariant. -/
theorem normal_mode_step_store (gw : Gateway) (s : Settings) (refresh : Bool) (now : ℤ)
    (acc : OneShotResult) (obj : TickerObj) (res : OneShotResult)
    (h : normal_mode_step gw s refresh now acc obj = .ok res)
    (hst : NoFailureStored acc.store) :
    NoFailureStored res.store := by
  unfold normal_mode_step at h
  split at h
  · split at h
    · cases h
      exact hst
    · exact normal_mode_fetch_store gw s now acc obj res h hst
  · exact normal_mode_fetch_store gw s now acc obj res h hst

/-- The whole normal-mode loop preserves the invariant. -/
theorem normal_mode_fold_store (gw : Gateway) (s : Settings) (refresh : Bool) (now : ℤ) :
    ∀ (rest : List TickerObj) (acc res : OneShotResult),
      NoFailureStored acc.store →
      normal_mode_fold gw s refresh now rest (.ok acc) = .ok res →
      NoFailureStored res.store := by
  intro rest
  induction rest with
  | nil =>
      intro acc res hst h
      have h' : (Except.ok acc : Except ApiError OneShotResult) = .ok res := h
      cases h'
      exact hst
  | cons o rest ih =>
      intro acc res hst h
      have hfold : normal_mode_fold gw s refresh now rest
          (normal_mode_step gw s refresh now acc o) = .ok res := h
      cases hstep : normal_mode_step gw s refresh now acc o with
      | error e =>
          rw [hstep, normal_mode_fold_error] at hfold
          simp at hfold
      | ok a' =>
          rw [hstep] at hfold
          exact ih a' res (normal_mode_step_store gw s refresh now acc o a' hstep hst) hfold

/-- One daemon-cycle ticker update preserves the invariant. -/
theorem daemon_step_preserves (gw : Gateway) (s : Settings) (now : ℤ) (st : CacheStore)
    (obj : TickerObj) (h : NoFailureStored st) :
    NoFailureStored (daemon_step gw s now st obj) := by
  unfold daemon_step
  split
  · exact h
  · exact h
  · exact update_cache_success_preserves _ _ _ _ h

/-- A full daemon pass preserves the invariant. -/
theorem daemon_cycle_preserves (gw : Gateway) (tickers : List TickerObj) (s : Settings)
    (now : ℤ) :
    ∀ st : CacheStore, NoFailureStored st →
      NoFailureStored (daemon_cycle gw tickers s now st) := by
  induction tickers with
  | nil => intro st h; exact h
  | cons o rest ih =>
      intro st h
      exact ih (daemon_step gw s now st o) (daemon_step_preserves gw s now st o h)

/-- Claim C9: neither one-shot mode nor daemon mode ever stores a
failure-variant record — the cache update runs only on success variants, so
the no-failure-stored invariant is preserved by every run. -/
theorem cache_never_stores_failure :
    (∀ (gw : Gateway) (s : Settings) (refresh : Bool) (now : ℤ)
       (tickers : List TickerObj) (st : CacheStore) (res : OneShotResult),
      NoFailureStored st →
      normal_mode gw s refresh now tickers st = .ok res →
      NoFailureStored res.store) ∧
    (∀ (gw : Gateway) (tickers : List TickerObj) (s : Settings) (now : ℤ) (st : CacheStore),
      NoFailureStored st →
      NoFailureStored (daemon_cycle gw tickers s now st)) := by
  constructor
  · intro gw s refresh now tickers st res hst h
    exact normal_mode_fold_store gw s refresh now tickers ⟨[], [], st⟩ res hst h
  · intro gw tickers s now st hst
    exact daemon_cycle_preserves gw tickers s now st hst

/-- Claim C9 witness: a daemon cycle over an initially empty (absent) cache
file leaves a store with no failure variant cached. -/
theorem cache_never_stores_failure_witness :
    NoFailureStored (daemon_cycle gwZero [objZero] settingsAll 0 none) :=
  cache_never_stores_failure.2 gwZero [objZero] settingsAll 0 none
    (fun _ _ he => Option.noConfusion he)
